import Mathlib

/-!
Verification of the coordinate utility module sculpt/idealpy/astro/utils.py:
angle normalization (check angle), horizontal to equatorial conversion
(azel2radec) and epoch precession (jprecess, bprecess). Python floats are
embedded as exact rationals, raised exceptions as an Except error value, and
the two external astronomy libraries (ephem and astrolib.coords) are
modelled from the spec where the claims depend on them.
-/

namespace Sculpt

/-- ephem.Angle, the canonical angle value of the external ephem library,
stored in radians. Exact rationals stand in for the floating point of the
original. -/
structure Angle where
  rad : ℚ
deriving DecidableEq

/-- A well formed sexagesimal angle string such as "135:23:20", carried in
parsed form: sign, then degree, minute and second components. A malformed
string would make the external parser raise, an error the spec (section 7)
says propagates unmodified and that no claim touches, so the model carries
strings already split into their fields. -/
structure Sexa where
  neg : Bool
  deg : ℕ
  mins : ℕ
  secs : ℚ
deriving DecidableEq

/-- The magnitude in degrees denoted by a sexagesimal string. -/
def Sexa.toDegrees (x : Sexa) : ℚ :=
  (if x.neg then -1 else 1) * ((x.deg : ℚ) + (x.mins : ℚ) / 60 + x.secs / 3600)

/-- A Python value passed as the angle argument of check angle: the three
accepted forms (an ephem.Angle instance, a string, a float) together with
representative rejected forms (an int, a mapping, None, a list). -/
inductive PyVal where
  | angle (a : Angle)
  | str (s : Sexa)
  | float (x : ℚ)
  | int (n : ℤ)
  | mapping
  | none
  | pylist (xs : List ℚ)
deriving DecidableEq

/-- The type test of utils.py line 9: isinstance(angle, ephem.Angle) or
type(angle) == types.StringType or type(angle) == types.FloatType. -/
def acceptedAngleType : PyVal → Bool
  | .angle _ => true
  | .str _ => true
  | .float _ => true
  | _ => false

/-- A raised Python exception as the claims observe it: either the
SculptArgumentError (parameter name, message) imported from sculpt.utils, or
a NameError from evaluating an identifier bound neither in the module
namespace nor among the builtins. -/
inductive PyError where
  | argumentError (param : String) (msg : String)
  | nameError (missing : String)
deriving DecidableEq

/-- Modelled from the spec: ephem.degrees of the external ephem library
(spec section 6) builds the canonical angle from an already typed Angle
(identity), from a string (sexagesimal degrees) or from a float (radians).
The radians per degree factor, pi divided by 180 in the real library, is
irrational, so it is abstracted as an explicit rational parameter c; no
claim depends on its value. The final arm is unreachable through check
angle, which guards the call with acceptedAngleType. -/
def ephemDegrees (c : ℚ) : PyVal → Angle
  | .angle a => a
  | .str s => ⟨s.toDegrees * c⟩
  | .float x => ⟨x⟩
  | _ => ⟨0⟩

/-- The names bound in the module namespace of utils.py: its six imports and
its four function definitions. IdealPyArgumentError is not among them, and
is no Python builtin either. -/
def moduleBinds : List String :=
  ["ephem", "types", "datetime", "SculptArgumentError", "coords", "numpy",
   "_check_angle", "azel2radec", "jprecess", "bprecess"]

/-- utils.py lines 8 to 12. On an accepted type the result is
ephem.degrees(angle). Otherwise the raise statement first evaluates the
name IdealPyArgumentError; that name is unbound in the module (see
moduleBinds) and is no builtin, so the lookup itself raises NameError and
no ArgumentError is ever constructed. -/
def _check_angle (c : ℚ) (angle : PyVal) : Except PyError Angle :=
  if acceptedAngleType angle then .ok (ephemDegrees c angle)
  else if "IdealPyArgumentError" ∈ moduleBinds then
    .error (.argumentError "angle"
      "angle should be of type ephem.Angle or string or float")
  else .error (.nameError "IdealPyArgumentError")

/-- datetime.date (modelled by its ordinal day) or datetime.datetime
(modelled by a rational timestamp), the two instance types the date check of
azel2radec accepts. -/
inductive PyDate where
  | date (day : ℤ)
  | datetime (t : ℚ)
deriving DecidableEq

/-- The optional date argument of azel2radec: None, an instance of
datetime.date or datetime.datetime, or any other Python value (for example
a string), which the isinstance test rejects. -/
inductive DateArg where
  | none
  | pyDate (d : PyDate)
  | other (s : String)
deriving DecidableEq

/-- utils.py lines 62 to 66: the date argument is kept only when it is not
None and is a datetime.datetime or datetime.date instance; every other
value, None included, is replaced by datetime.datetime.now(), the clock
reading being passed here explicitly as now. -/
def resolveObsDate (date : DateArg) (now : ℚ) : PyDate :=
  match date with
  | .pyDate d => d
  | _ => .datetime now

/-- The ephem.Observer fields utils.py sets: latitude, longitude and
observation date. -/
structure Observer where
  lat : Angle
  long : Angle
  date : PyDate
deriving DecidableEq

/-- A numeric reading of the observer date, used by the modelled transform. -/
def dateScalar : PyDate → ℚ
  | .date day => (day : ℚ)
  | .datetime t => t

/-- Modelled from the spec: Observer.radec_of of the external ephem library
(spec sections 4.2 and 6) computes apparent RA and Dec from the observer
location and date and from the given azimuth and altitude. The exact form
below stands in for the spherical astronomy; it depends on every input the
spec says the transform depends on. -/
def radec_of (obs : Observer) (az alt : Angle) : Angle × Angle :=
  (⟨az.rad + obs.lat.rad + dateScalar obs.date⟩,
   ⟨alt.rad + obs.long.rad - dateScalar obs.date⟩)

/-- utils.py lines 14 to 68: check latitude and longitude, then azimuth and
elevation, resolve the observation date, and delegate to radec_of. Checks
are performed in source order, so the first failing angle argument
determines the raised error. -/
def azel2radec (c : ℚ) (az el latitude longitude : PyVal)
    (date : DateArg) (now : ℚ) : Except PyError (Angle × Angle) :=
  match _check_angle c latitude, _check_angle c longitude,
        _check_angle c az, _check_angle c el with
  | .ok lat, .ok lon, .ok azA, .ok elA =>
      .ok (radec_of ⟨lat, lon, resolveObsDate date now⟩ azA elA)
  | .error e, _, _, _ => .error e
  | _, .error e, _, _ => .error e
  | _, _, .error e, _ => .error e
  | _, _, _, .error e => .error e

/-- The epoch argument of jprecess and bprecess: a Python string or float. -/
inductive EpochVal where
  | str (s : String)
  | flt (x : ℚ)
deriving DecidableEq

/-- The alias tokens utils.py line 93 rewrites to the float 1950.0. -/
def jAliases : List String := ["1950.0", "1950.", "1950", "B1950"]

/-- The alias tokens utils.py line 136 rewrites to the float 2000.0. -/
def bAliases : List String := ["2000.0", "2000.", "2000", "J2000"]

/-- utils.py lines 93 to 94: a string epoch equal to one of the four alias
tokens becomes the float 1950.0. A float epoch never compares equal to a
string in Python, so every float passes through unchanged, as does any
other string. -/
def normalizeEpochJ : EpochVal → EpochVal
  | .str s => if s ∈ jAliases then .flt 1950 else .str s
  | .flt x => .flt x

/-- utils.py lines 136 to 137, the bprecess counterpart of normalizeEpochJ. -/
def normalizeEpochB : EpochVal → EpochVal
  | .str s => if s ∈ bAliases then .flt 2000 else .str s
  | .flt x => .flt x

/-- An RA or Dec argument of jprecess and bprecess: a float, or one of the
three sequence types of the type test on line 95 (list, tuple,
numpy.ndarray), carrying float elements in degrees. -/
inductive PyNum where
  | float (x : ℚ)
  | list (xs : List ℚ)
  | tuple (xs : List ℚ)
  | array (xs : List ℚ)
deriving DecidableEq

/-- The test type(ra) in (types.ListType, types.TupleType, numpy.ndarray)
of utils.py lines 95 and 139. -/
def isSeqType : PyNum → Bool
  | .float _ => false
  | _ => true

/-- The elements of a sequence argument, matching Python len and iteration
on the three sequence types (only ever applied to those). -/
def elems : PyNum → List ℚ
  | .float x => [x]
  | .list xs => xs
  | .tuple xs => xs
  | .array xs => xs

/-- astrolib.coords.Position exactly as utils.py constructs it: the RA and
Dec slots receive the Python values the caller passed, and the equinox
keyword receives the epoch after the alias rewrite. -/
structure Position where
  ra : PyNum
  dec : PyNum
  equinox : EpochVal
deriving DecidableEq

/-- Modelled from the spec: the RA drift rate per year of the external
FK4 and FK5 precession transform, an exact rational standing in for the
rotation matrix coefficients (spec section 6 allows any library of
equivalent rigor; the claims depend only on the transform being exactly
invertible, not on the rate values). -/
def precRateRA : ℚ := 64 / 4500

/-- Modelled from the spec: the Dec drift rate per year, see precRateRA. -/
def precRateDec : ℚ := 9 / 1600

/-- Modelled from the spec: Position.j2000() of the external coordinate
precession library converts the pair from its tagged equinox to the J2000
frame (spec sections 4.3 and 6), modelled as the exact invertible shift by
the drift rates over the year span. On arguments where the real library
raises (non numeric coordinate slots, or an equinox string it cannot parse)
the model returns a fixed pair; no claim touches that region. -/
def Position.j2000 (p : Position) : ℚ × ℚ :=
  match p.ra, p.dec, p.equinox with
  | .float r, .float d, .flt e =>
      (r + (2000 - e) * precRateRA, d + (2000 - e) * precRateDec)
  | _, _, _ => (0, 0)

/-- Modelled from the spec: Position.b1950() of the external coordinate
precession library, the conversion to the B1950 frame, see Position.j2000. -/
def Position.b1950 (p : Position) : ℚ × ℚ :=
  match p.ra, p.dec, p.equinox with
  | .float r, .float d, .flt e =>
      (r + (1950 - e) * precRateRA, d + (1950 - e) * precRateDec)
  | _, _, _ => (0, 0)

/-- The return value of jprecess and bprecess: the (RA, Dec) tuple of
scalar mode, or the Python list built by the vector mode loop. -/
inductive PrecessRet where
  | pair (rd : ℚ × ℚ)
  | list (rds : List (ℚ × ℚ))
deriving DecidableEq

/-- The message of the SculptArgumentError raised on a bad dec argument in
jprecess and bprecess. -/
def decMsg : String := "dec should be of same type as RA, and have same length"

/-- utils.py lines 93 to 109: rewrite alias epochs, decide vector mode from
the type of ra, in vector mode validate dec (same shortcut or as the
source: the length comparison is only reached when dec is one of the three
sequence types) and convert each pair in order, in scalar mode convert the
single pair. -/
def jprecess (ra dec : PyNum) (epoch : EpochVal := .str "1950.0") :
    Except PyError PrecessRet :=
  let ep := normalizeEpochJ epoch
  if isSeqType ra then
    if (!(isSeqType dec)) || ((elems ra).length != (elems dec).length) then
      .error (.argumentError "dec" decMsg)
    else
      .ok (.list (((elems ra).zip (elems dec)).map
        (fun rd => Position.j2000 ⟨.float rd.1, .float rd.2, ep⟩)))
  else
    .ok (.pair (Position.j2000 ⟨ra, dec, ep⟩))

/-- The coords.Position values a jprecess call constructs, in construction
order: none at all when the dec check raises first (so a failing vector
call performs no conversion), one per element pair in vector mode, one in
scalar mode. -/
def jprecessPositions (ra dec : PyNum) (epoch : EpochVal := .str "1950.0") :
    List Position :=
  let ep := normalizeEpochJ epoch
  if isSeqType ra then
    if (!(isSeqType dec)) || ((elems ra).length != (elems dec).length) then []
    else ((elems ra).zip (elems dec)).map
      (fun rd => ⟨.float rd.1, .float rd.2, ep⟩)
  else [⟨ra, dec, ep⟩]

/-- utils.py lines 136 to 152, identical control flow to jprecess with the
2000 epoch aliases and the conversion to B1950. -/
def bprecess (ra dec : PyNum) (epoch : EpochVal := .str "2000.0") :
    Except PyError PrecessRet :=
  let ep := normalizeEpochB epoch
  if isSeqType ra then
    if (!(isSeqType dec)) || ((elems ra).length != (elems dec).length) then
      .error (.argumentError "dec" decMsg)
    else
      .ok (.list (((elems ra).zip (elems dec)).map
        (fun rd => Position.b1950 ⟨.float rd.1, .float rd.2, ep⟩)))
  else
    .ok (.pair (Position.b1950 ⟨ra, dec, ep⟩))

/-- The coords.Position values a bprecess call constructs, in construction
order, see jprecessPositions. -/
def bprecessPositions (ra dec : PyNum) (epoch : EpochVal := .str "2000.0") :
    List Position :=
  let ep := normalizeEpochB epoch
  if isSeqType ra then
    if (!(isSeqType dec)) || ((elems ra).length != (elems dec).length) then []
    else ((elems ra).zip (elems dec)).map
      (fun rd => ⟨.float rd.1, .float rd.2, ep⟩)
  else [⟨ra, dec, ep⟩]

/-- C1: the claim says a rejected input type makes check angle raise an
ArgumentError naming the parameter angle; on the code, every rejected input
(a mapping, None, an int, a list) instead raises a NameError for the
unbound identifier IdealPyArgumentError, which is not an ArgumentError of
any parameter and message. This evaluates the embedded code at the failing
inputs and separates the two exceptions. -/
theorem c1_check_angle_raises_name_error : ∀ c : ℚ,
    _check_angle c .mapping = .error (.nameError "IdealPyArgumentError")
    ∧ _check_angle c .none = .error (.nameError "IdealPyArgumentError")
    ∧ _check_angle c (.int 5) = .error (.nameError "IdealPyArgumentError")
    ∧ _check_angle c (.pylist [1]) = .error (.nameError "IdealPyArgumentError")
    ∧ ∀ p m, (PyError.nameError "IdealPyArgumentError") ≠ .argumentError p m := by
  intro c
  refine ⟨rfl, rfl, rfl, rfl, fun p m h => PyError.noConfusion h⟩

/-- C7: the three accepted forms of one magnitude, an already typed angle of
r radians, the float r (radians) and a sexagesimal string denoting the same
magnitude (its degrees times the radians per degree factor c equal r), all
normalize to the same canonical angle. With exact rational arithmetic the
three results coincide on the nose, hence within every floating point
tolerance. -/
theorem c7_three_forms_same_angle (c r : ℚ) (s : Sexa)
    (h : Sexa.toDegrees s * c = r) :
    _check_angle c (.angle ⟨r⟩) = .ok ⟨r⟩
    ∧ _check_angle c (.float r) = .ok ⟨r⟩
    ∧ _check_angle c (.str s) = .ok ⟨r⟩ := by
  refine ⟨rfl, rfl, ?_⟩
  simp [_check_angle, acceptedAngleType, ephemDegrees, h]

/-- Witness for C7 at the string "90:0:0", the factor 1 over 90 and the
magnitude 1. -/
theorem c7_witness :
    Sexa.toDegrees ⟨false, 90, 0, 0⟩ * (1 / 90) = 1
    ∧ (_check_angle (1 / 90) (.angle ⟨1⟩) = .ok ⟨1⟩
       ∧ _check_angle (1 / 90) (.float 1) = .ok ⟨1⟩
       ∧ _check_angle (1 / 90) (.str ⟨false, 90, 0, 0⟩) = .ok ⟨1⟩) := by
  have hd : Sexa.toDegrees ⟨false, 90, 0, 0⟩ * (1 / 90) = 1 := by
    norm_num [Sexa.toDegrees]
  exact ⟨hd, c7_three_forms_same_angle (1 / 90) 1 ⟨false, 90, 0, 0⟩ hd⟩

/-- C3: when the caller supplies a date or datetime instance d, azel2radec
uses d verbatim as the observer date (the result does not depend on the
clock reading now); when the caller supplies no date, the observer date is
the clock reading at call time. -/
theorem c3_date_verbatim_else_now (c : ℚ) (az el lat lon : PyVal)
    (d : PyDate) (now now2 : ℚ)
    (ha : acceptedAngleType az = true) (he : acceptedAngleType el = true)
    (hla : acceptedAngleType lat = true) (hlo : acceptedAngleType lon = true) :
    azel2radec c az el lat lon (.pyDate d) now
      = .ok (radec_of ⟨ephemDegrees c lat, ephemDegrees c lon, d⟩
          (ephemDegrees c az) (ephemDegrees c el))
    ∧ azel2radec c az el lat lon (.pyDate d) now
      = azel2radec c az el lat lon (.pyDate d) now2
    ∧ azel2radec c az el lat lon .none now
      = .ok (radec_of ⟨ephemDegrees c lat, ephemDegrees c lon, .datetime now⟩
          (ephemDegrees c az) (ephemDegrees c el)) := by
  refine ⟨?_, ?_, ?_⟩ <;>
    simp [azel2radec, _check_angle, ha, he, hla, hlo, resolveObsDate]

/-- Witness for C3 at four float angle arguments, the datetime 5 and the
clock readings 6 and 7. -/
theorem c3_witness :
    azel2radec 1 (.float 1) (.float 2) (.float 3) (.float 4)
        (.pyDate (.datetime 5)) 6
      = .ok (radec_of ⟨ephemDegrees 1 (.float 3), ephemDegrees 1 (.float 4),
          .datetime 5⟩ (ephemDegrees 1 (.float 1)) (ephemDegrees 1 (.float 2)))
    ∧ azel2radec 1 (.float 1) (.float 2) (.float 3) (.float 4)
        (.pyDate (.datetime 5)) 6
      = azel2radec 1 (.float 1) (.float 2) (.float 3) (.float 4)
        (.pyDate (.datetime 5)) 7
    ∧ azel2radec 1 (.float 1) (.float 2) (.float 3) (.float 4) .none 6
      = .ok (radec_of ⟨ephemDegrees 1 (.float 3), ephemDegrees 1 (.float 4),
          .datetime 6⟩ (ephemDegrees 1 (.float 1)) (ephemDegrees 1 (.float 2))) :=
  c3_date_verbatim_else_now 1 (.float 1) (.float 2) (.float 3) (.float 4)
    (.datetime 5) 6 7 rfl rfl rfl rfl

/-- C9: a non None date argument that is no date or datetime instance (here
any string) never raises on the date argument: the call behaves exactly as
the call with no date at all, the supplied value is discarded and the clock
reading is used; with valid angle arguments the call succeeds. -/
theorem c9_bad_date_silently_now (c : ℚ) (az el lat lon : PyVal)
    (s : String) (now : ℚ) :
    azel2radec c az el lat lon (.other s) now
      = azel2radec c az el lat lon .none now
    ∧ (acceptedAngleType az = true → acceptedAngleType el = true →
       acceptedAngleType lat = true → acceptedAngleType lon = true →
       azel2radec c az el lat lon (.other s) now
         = .ok (radec_of ⟨ephemDegrees c lat, ephemDegrees c lon, .datetime now⟩
             (ephemDegrees c az) (ephemDegrees c el))) := by
  constructor
  · rfl
  · intro ha he hla hlo
    simp [azel2radec, _check_angle, ha, he, hla, hlo, resolveObsDate]

/-- Witness for C9 at four float angle arguments, the string date argument
"2010-01-01" and the clock reading 6. -/
theorem c9_witness :
    azel2radec 1 (.float 1) (.float 2) (.float 3) (.float 4)
        (.other "2010-01-01") 6
      = azel2radec 1 (.float 1) (.float 2) (.float 3) (.float 4) .none 6
    ∧ azel2radec 1 (.float 1) (.float 2) (.float 3) (.float 4)
        (.other "2010-01-01") 6
      = .ok (radec_of ⟨ephemDegrees 1 (.float 3), ephemDegrees 1 (.float 4),
          .datetime 6⟩ (ephemDegrees 1 (.float 1)) (ephemDegrees 1 (.float 2))) :=
  ⟨(c9_bad_date_silently_now 1 (.float 1) (.float 2) (.float 3) (.float 4)
      "2010-01-01" 6).1,
   (c9_bad_date_silently_now 1 (.float 1) (.float 2) (.float 3) (.float 4)
      "2010-01-01" 6).2 rfl rfl rfl rfl⟩

/-- C2: vector mode holds exactly when the type of ra is one of the three
sequence types: a non sequence ra yields a scalar pair, a sequence ra with a
sequence dec of equal length yields a list, and a sequence ra whose dec is
not a sequence type or has a different length raises the SculptArgumentError
naming dec while constructing no Position at all, so a failing vector call
converts none of the pairs; the same holds for bprecess. -/
theorem c2_vector_mode_dec_check (ra dec : PyNum) (e : EpochVal) :
    (isSeqType ra = false → (∃ rd, jprecess ra dec e = .ok (.pair rd))
      ∧ (∃ rd, bprecess ra dec e = .ok (.pair rd)))
    ∧ (isSeqType ra = true → isSeqType dec = true →
        (elems ra).length = (elems dec).length →
        (∃ rds, jprecess ra dec e = .ok (.list rds))
        ∧ (∃ rds, bprecess ra dec e = .ok (.list rds)))
    ∧ (isSeqType ra = true →
        isSeqType dec = false ∨ (elems ra).length ≠ (elems dec).length →
        jprecess ra dec e = .error (.argumentError "dec" decMsg)
        ∧ jprecessPositions ra dec e = []
        ∧ bprecess ra dec e = .error (.argumentError "dec" decMsg)
        ∧ bprecessPositions ra dec e = []) := by
  refine ⟨?_, ?_, ?_⟩
  · intro h
    exact ⟨⟨Position.j2000 ⟨ra, dec, normalizeEpochJ e⟩, by simp [jprecess, h]⟩,
           ⟨Position.b1950 ⟨ra, dec, normalizeEpochB e⟩, by simp [bprecess, h]⟩⟩
  · intro h1 h2 h3
    exact ⟨⟨((elems ra).zip (elems dec)).map
            (fun rd => Position.j2000 ⟨.float rd.1, .float rd.2, normalizeEpochJ e⟩),
            by simp [jprecess, h1, h2, h3]⟩,
           ⟨((elems ra).zip (elems dec)).map
            (fun rd => Position.b1950 ⟨.float rd.1, .float rd.2, normalizeEpochB e⟩),
            by simp [bprecess, h1, h2, h3]⟩⟩
  · intro h1 h2
    rcases h2 with h | h <;>
      refine ⟨?_, ?_, ?_, ?_⟩ <;>
        simp [jprecess, bprecess, jprecessPositions, bprecessPositions,
          h1, h, bne_iff_ne]

/-- Witness for C2 at ra a list of length one, dec a tuple of length two and
a float epoch: the dec check fails on the length mismatch, both calls raise
the error naming dec, and neither constructs a Position. -/
theorem c2_witness :
    jprecess (.list [1]) (.tuple [2, 3]) (.flt 1950)
      = .error (.argumentError "dec" decMsg)
    ∧ jprecessPositions (.list [1]) (.tuple [2, 3]) (.flt 1950) = []
    ∧ bprecess (.list [1]) (.tuple [2, 3]) (.flt 1950)
      = .error (.argumentError "dec" decMsg)
    ∧ bprecessPositions (.list [1]) (.tuple [2, 3]) (.flt 1950) = [] :=
  (c2_vector_mode_dec_check (.list [1]) (.tuple [2, 3]) (.flt 1950)).2.2
    rfl (Or.inr (by decide))

/-- C4: every jprecess alias token for 1950 gives the very same call result
as the float 1950.0, and every bprecess alias token for 2000 the same as
the float 2000.0, on every RA and Dec input. -/
theorem c4_epoch_alias_tokens (ra dec : PyNum) (tj tb : String)
    (hj : tj ∈ jAliases) (hb : tb ∈ bAliases) :
    jprecess ra dec (.str tj) = jprecess ra dec (.flt 1950)
    ∧ bprecess ra dec (.str tb) = bprecess ra dec (.flt 2000) := by
  have h1 : normalizeEpochJ (.str tj) = normalizeEpochJ (.flt 1950) := by
    simp [normalizeEpochJ, hj]
  have h2 : normalizeEpochB (.str tb) = normalizeEpochB (.flt 2000) := by
    simp [normalizeEpochB, hb]
  exact ⟨by simp only [jprecess, h1], by simp only [bprecess, h2]⟩

/-- Witness for C4 at the tokens "B1950" and "J2000" and a scalar pair. -/
theorem c4_witness :
    jprecess (.float 10) (.float 20) (.str "B1950")
      = jprecess (.float 10) (.float 20) (.flt 1950)
    ∧ bprecess (.float 10) (.float 20) (.str "J2000")
      = bprecess (.float 10) (.float 20) (.flt 2000) :=
  c4_epoch_alias_tokens (.float 10) (.float 20) "B1950" "J2000"
    (by decide) (by decide)

/-- C10: a successful vector mode call returns the Python list that the
loop builds, for every combination of the three sequence container types on
ra and dec, so the output container never mirrors the input container. -/
theorem c10_output_always_list (ra dec : PyNum) (e : EpochVal)
    (hra : isSeqType ra = true) (hdec : isSeqType dec = true)
    (hlen : (elems ra).length = (elems dec).length) :
    (∃ rds, jprecess ra dec e = .ok (.list rds))
    ∧ (∃ rds, bprecess ra dec e = .ok (.list rds)) :=
  ⟨⟨((elems ra).zip (elems dec)).map
      (fun rd => Position.j2000 ⟨.float rd.1, .float rd.2, normalizeEpochJ e⟩),
    by simp [jprecess, hra, hdec, hlen]⟩,
   ⟨((elems ra).zip (elems dec)).map
      (fun rd => Position.b1950 ⟨.float rd.1, .float rd.2, normalizeEpochB e⟩),
    by simp [bprecess, hra, hdec, hlen]⟩⟩

/-- Witness for C10 at a numpy array ra and a tuple dec of length one. -/
theorem c10_witness :
    (∃ rds, jprecess (.array [1]) (.tuple [2]) (.flt 1950) = .ok (.list rds))
    ∧ (∃ rds, bprecess (.array [1]) (.tuple [2]) (.flt 1950) = .ok (.list rds)) :=
  c10_output_always_list (.array [1]) (.tuple [2]) (.flt 1950) rfl rfl rfl

/-- Indexing a map over a zip of equally long lists reads the two inputs at
the same index, the helper behind the order preservation claims. -/
theorem getD_map_zip {α : Type} (f : ℚ × ℚ → α) (xs ys : List ℚ) (i : ℕ)
    (hi : i < xs.length) (hlen : xs.length = ys.length) (d0 : α) :
    ((xs.zip ys).map f).getD i d0 = f ((xs.getD i 0), (ys.getD i 0)) := by
  have hiy : i < ys.length := hlen ▸ hi
  have hzi : i < (xs.zip ys).length := by
    simp only [List.length_zip]
    exact lt_min hi hiy
  have hmi : i < ((xs.zip ys).map f).length := by
    simpa using hzi
  rw [List.getD_eq_getElem _ _ hmi, List.getElem_map, List.getElem_zip,
    List.getD_eq_getElem _ _ hi, List.getD_eq_getElem _ _ hiy]

/-- C5: a vector mode call with equally long sequences returns one output
per input pair, in input order: the result lists have the input length and
the entry at every index i is exactly what the scalar call on the pair at
index i returns, for jprecess and bprecess alike. -/
theorem c5_vector_order_preserved (ra dec : PyNum) (e : EpochVal)
    (hra : isSeqType ra = true) (hdec : isSeqType dec = true)
    (hlen : (elems ra).length = (elems dec).length) :
    ∃ jrds brds,
      jprecess ra dec e = .ok (.list jrds)
      ∧ bprecess ra dec e = .ok (.list brds)
      ∧ jrds.length = (elems ra).length
      ∧ brds.length = (elems ra).length
      ∧ ∀ i, i < (elems ra).length →
          jprecess (.float ((elems ra).getD i 0))
              (.float ((elems dec).getD i 0)) e
            = .ok (.pair (jrds.getD i (0, 0)))
          ∧ bprecess (.float ((elems ra).getD i 0))
              (.float ((elems dec).getD i 0)) e
            = .ok (.pair (brds.getD i (0, 0))) := by
  refine ⟨((elems ra).zip (elems dec)).map
      (fun rd => Position.j2000 ⟨.float rd.1, .float rd.2, normalizeEpochJ e⟩),
    ((elems ra).zip (elems dec)).map
      (fun rd => Position.b1950 ⟨.float rd.1, .float rd.2, normalizeEpochB e⟩),
    by simp [jprecess, hra, hdec, hlen],
    by simp [bprecess, hra, hdec, hlen], ?_, ?_, ?_⟩
  · simp [List.length_zip, hlen]
  · simp [List.length_zip, hlen]
  · intro i hi
    constructor
    · rw [getD_map_zip _ _ _ i hi hlen]
      simp [jprecess, isSeqType]
    · rw [getD_map_zip _ _ _ i hi hlen]
      simp [bprecess, isSeqType]

/-- Witness for C5 at ra the list (10, 30) and dec the list (20, 40). -/
theorem c5_witness :
    ∃ jrds brds,
      jprecess (.list [10, 30]) (.list [20, 40]) (.flt 1950)
        = .ok (.list jrds)
      ∧ bprecess (.list [10, 30]) (.list [20, 40]) (.flt 1950)
        = .ok (.list brds)
      ∧ jrds.length = (elems (.list [10, 30])).length
      ∧ brds.length = (elems (.list [10, 30])).length
      ∧ ∀ i, i < (elems (.list [10, 30])).length →
          jprecess (.float ((elems (.list [10, 30])).getD i 0))
              (.float ((elems (.list [20, 40])).getD i 0)) (.flt 1950)
            = .ok (.pair (jrds.getD i (0, 0)))
          ∧ bprecess (.float ((elems (.list [10, 30])).getD i 0))
              (.float ((elems (.list [20, 40])).getD i 0)) (.flt 1950)
            = .ok (.pair (brds.getD i (0, 0))) :=
  c5_vector_order_preserved (.list [10, 30]) (.list [20, 40]) (.flt 1950)
    rfl rfl rfl

/-- C6: precessing a scalar pair from epoch 1950 to J2000 with jprecess and
the result from epoch 2000 back to B1950 with bprecess returns the original
pair; in the exact rational model the round trip error is zero, so it lies
within the claimed small tolerance. -/
theorem c6_roundtrip_inverse (r d : ℚ) :
    ∃ p q,
      jprecess (.float r) (.float d) (.flt 1950) = .ok (.pair p)
      ∧ bprecess (.float p.1) (.float p.2) (.flt 2000) = .ok (.pair q)
      ∧ |q.1 - r| ≤ 1 / 1000000 ∧ |q.2 - d| ≤ 1 / 1000000 := by
  refine ⟨(r + 50 * precRateRA, d + 50 * precRateDec), (r, d), ?_, ?_, ?_, ?_⟩
  · simp only [jprecess, isSeqType, normalizeEpochJ, Position.j2000,
      Bool.false_eq_true, if_false]
    norm_num
  · simp only [bprecess, isSeqType, normalizeEpochB, Position.b1950,
      Bool.false_eq_true, if_false]
    norm_num
  · norm_num
  · norm_num

/-- C8: per function, an epoch that is not one of that function's own alias
tokens reaches every constructed coords.Position unchanged, and the function
never rejects it early: the only error the call can raise itself is the dec
argument error. The two halves carry independent hypotheses, so the jprecess
half also covers the 2000 tokens ("2000", "2000.", "2000.0", "J2000"),
which jprecess passes through, and the bprecess half the 1950 tokens. -/
theorem c8_epoch_passthrough (ra dec : PyNum) (e : EpochVal) :
    ((∀ s, e = EpochVal.str s → s ∉ jAliases) →
      (∀ p ∈ jprecessPositions ra dec e, p.equinox = e)
      ∧ (∀ err, jprecess ra dec e = .error err
          → err = .argumentError "dec" decMsg))
    ∧ ((∀ s, e = EpochVal.str s → s ∉ bAliases) →
      (∀ p ∈ bprecessPositions ra dec e, p.equinox = e)
      ∧ (∀ err, bprecess ra dec e = .error err
          → err = .argumentError "dec" decMsg)) := by
  refine ⟨?_, ?_⟩
  · intro hj
    have hnj : normalizeEpochJ e = e := by
      cases e with
      | str s => simp [normalizeEpochJ, hj s rfl]
      | flt x => rfl
    refine ⟨?_, ?_⟩
    · intro p hp
      simp only [jprecessPositions, hnj] at hp
      split at hp
      · split at hp
        · simp at hp
        · obtain ⟨rd, _, rfl⟩ := List.mem_map.1 hp
          rfl
      · simp at hp
        subst hp
        rfl
    · intro err herr
      simp only [jprecess] at herr
      split at herr
      · split at herr
        · injection herr with h
          exact h.symm
        · exact Except.noConfusion herr
      · exact Except.noConfusion herr
  · intro hb
    have hnb : normalizeEpochB e = e := by
      cases e with
      | str s => simp [normalizeEpochB, hb s rfl]
      | flt x => rfl
    refine ⟨?_, ?_⟩
    · intro p hp
      simp only [bprecessPositions, hnb] at hp
      split at hp
      · split at hp
        · simp at hp
        · obtain ⟨rd, _, rfl⟩ := List.mem_map.1 hp
          rfl
      · simp at hp
        subst hp
        rfl
    · intro err herr
      simp only [bprecess] at herr
      split at herr
      · split at herr
        · injection herr with h
          exact h.symm
        · exact Except.noConfusion herr
      · exact Except.noConfusion herr

/-- Witness for C8 at the cross tokens: jprecess with "J2000" (an alias
only for bprecess) and bprecess with "B1950" (an alias only for jprecess),
each on a vector pair. -/
theorem c8_witness :
    (∀ p ∈ jprecessPositions (.list [1]) (.list [2]) (.str "J2000"),
      p.equinox = .str "J2000")
    ∧ (∀ err, jprecess (.list [1]) (.list [2]) (.str "J2000") = .error err
        → err = .argumentError "dec" decMsg)
    ∧ (∀ p ∈ bprecessPositions (.list [1]) (.list [2]) (.str "B1950"),
      p.equinox = .str "B1950")
    ∧ (∀ err, bprecess (.list [1]) (.list [2]) (.str "B1950") = .error err
        → err = .argumentError "dec" decMsg) :=
  ⟨((c8_epoch_passthrough (.list [1]) (.list [2]) (.str "J2000")).1
      (by intro s h; cases h; decide)).1,
   ((c8_epoch_passthrough (.list [1]) (.list [2]) (.str "J2000")).1
      (by intro s h; cases h; decide)).2,
   ((c8_epoch_passthrough (.list [1]) (.list [2]) (.str "B1950")).2
      (by intro s h; cases h; decide)).1,
   ((c8_epoch_passthrough (.list [1]) (.list [2]) (.str "B1950")).2
      (by intro s h; cases h; decide)).2⟩

end Sculpt
